import Mathlib

/-!
Shallow embedding of the `containers` adaptive resource governor
(`src/controller/controller.py`, `src/controller/ml_policy.py`,
`src/agent/agent.py`) and proofs about its claims.

Conventions of the embedding:
* Python `int` is `Int`; Python `float` is `ℚ` (exact rational arithmetic;
  binary-float rounding is not modelled).
* Python dictionaries are association lists (`List (String × α)`) with
  insertion-order iteration and key-overwrite on assignment (`upsert`).
* Python exceptions are `Except`: a raised `ValueError`/`TypeError`/`OSError`
  aborts the function; for the stateful controller methods the error value
  carries the mutated in-memory state and the side effects that happened
  before the raise, since in Python those persist across the raise.
* File-system side effects (cgroupfs writes, journal appends, stdout prints,
  directory creation) are recorded as an explicit `Effect` trace in the order
  the source performs them.
* The sklearn regressor behind `SoftLimitPolicy` is opaque: its prediction
  for the current tick's feature vector enters the model as the parameter
  `predicted : Option ℚ` (`none` = no policy configured).
* Wall-clock timestamps (`time.time()`) and human-readable `message` strings
  of events are omitted from payloads; all typed `data` fields are kept.
-/

namespace Containers

/-- Split a character list at separator characters (separators are dropped,
empty pieces are kept, mirroring Python `str.split(sep)`). -/
def splitChars (sep : Char → Bool) : List Char → List Char → List (List Char)
  | [], acc => [acc.reverse]
  | c :: rest, acc =>
    if sep c then acc.reverse :: splitChars sep rest []
    else splitChars sep rest (c :: acc)

/-- Python `str.split()` with no argument: split on whitespace and drop
empty pieces. -/
def pyWords (s : String) : List String :=
  ((splitChars (fun c => c = ' ' ∨ c = '\t') s.data []).filter (· ≠ [])).map
    List.asString

/-- Python `str.split(sep)` for a single-character separator: empty pieces
are kept. -/
def pySplitOn (sep : Char) (s : String) : List String :=
  (splitChars (fun c => c = sep) s.data []).map List.asString

/-- Python `" " in line`. -/
def hasSpace (s : String) : Bool := s.data.contains ' '

/-- Decimal digits to a natural number; `none` on any non-digit. -/
def digitsToNat : List Char → Option Nat
  | [] => none
  | cs => cs.foldl (fun acc? c => acc?.bind (fun acc =>
      if c.isDigit then some (acc * 10 + (c.toNat - 48)) else none)) (some 0)

/-- Python `int(s)` on a decimal string: `none` models the raised
`ValueError`. -/
def pyParseInt (s : String) : Option Int :=
  match s.data with
  | '-' :: rest => (digitsToNat rest).map (fun n => -(n : Int))
  | cs => (digitsToNat cs).map (fun n => (n : Int))

/-- First-match association-list lookup (Python `dict.get(k)`). -/
def getS {α : Type} : List (String × α) → String → Option α
  | [], _ => none
  | (k, v) :: rest, key => if k = key then some v else getS rest key

/-- Python `dict.get(k, d)`. -/
def getD {α : Type} (m : List (String × α)) (k : String) (d : α) : α :=
  (getS m k).getD d

/-- Python `dict[k] = v`: overwrite in place, else append. -/
def upsert {α : Type} : List (String × α) → String → α → List (String × α)
  | [], k, v => [(k, v)]
  | (k', v') :: rest, k, v =>
    if k' = k then (k, v) :: rest else (k', v') :: upsert rest k v

/-- Python `dict[k] = dict.get(k, 0) + v` for integer accumulation. -/
def upsertAdd (m : List (String × Int)) (k : String) (v : Int) :
    List (String × Int) :=
  upsert m k (getD m k 0 + v)

/-- `int(stat.get(key, 0))`: default `0`, parse a present string value,
`none` models the raised `ValueError`. -/
def pyIntField (m : List (String × String)) (k : String) : Option Int :=
  match getS m k with
  | none => some 0
  | some s => pyParseInt s

/-- Python builtin `min` on two ints. -/
def pyMinI (a b : Int) : Int := if a ≤ b then a else b

/-- Python builtin `max` on two ints. -/
def pyMaxI (a b : Int) : Int := if b ≤ a then a else b

/-- Python builtin `min` on two rationals. -/
def pyMinQ (a b : ℚ) : ℚ := if a ≤ b then a else b

/-- Python `int(x)` on a float: truncation toward zero.  On a rational this
is the truncated quotient of numerator by denominator. -/
def pyTrunc (q : ℚ) : Int := Int.tdiv q.num (q.den : Int)

/-- Python `a or b` for `a : Optional[int]`: `b` when `a` is `None` or the
falsy integer `0`. -/
def pyOrInt (a : Option Int) (b : Int) : Int :=
  match a with
  | some v => if v = 0 then b else v
  | none => b

/-- Python `s.endswith("wait")`. -/
def endsWithWait (s : String) : Bool := "wait".data.isSuffixOf s.data

/-- Python `line.startswith(device)`. -/
def startsWith (pre s : String) : Bool := pre.data.isPrefixOf s.data

instance instDecEqExcept {ε α : Type} [DecidableEq ε] [DecidableEq α] :
    DecidableEq (Except ε α) := fun x y =>
  match x, y with
  | .error a, .error b =>
    if h : a = b then .isTrue (by rw [h]) else .isFalse (by simp [h])
  | .error _, .ok _ => .isFalse (by simp)
  | .ok _, .error _ => .isFalse (by simp)
  | .ok a, .ok b =>
    if h : a = b then .isTrue (by rw [h]) else .isFalse (by simp [h])

end Containers

namespace Containers

/-- Typed event payloads (journal field `type` plus the `data` dictionary of
`emit` call sites; `message` strings and timestamps omitted). -/
inductive Event where
  | info (pid : Int) (cgroup : String)
  | softLimitHitCpu (container : String) (new_soft_quota_us : Int)
  | hardLimitHitCpu (container : String) (hard_quota_us : Int)
  | softLimitHitMem (container : String) (new_soft_bytes : Int)
  | hardLimitHitMem (container : String) (value : Int)
  | softLimitHitIo (container : String) (new_soft_rbps new_soft_wbps : Int)
  | hardLimitHitIo (container : String) (rbps wbps : Int)
  | mlAdjustment (container : String)
      (previous_soft_quota_us new_soft_quota_us throttled_delta_usec : Int)
  | mlEffective (container : String)
      (previous_delta current_delta applied_soft_quota_us improvement : Int)
  | mlNoImprovement (container : String)
      (previous_delta current_delta applied_soft_quota_us improvement : Int)
  | memoryEvent (container event_key : String) (count : Int)
  | memoryCritical (container event_key : String) (count : Int)
  | cpuThrottle (container : String) (delta total : Int)
  | ioPressure (container : String) (deltas : List (String × Int))
  deriving DecidableEq, Repr

/-- The journal `type` string of an event. -/
def Event.typeName : Event → String
  | .info .. => "info"
  | .softLimitHitCpu .. => "soft_limit_hit"
  | .hardLimitHitCpu .. => "hard_limit_hit"
  | .softLimitHitMem .. => "soft_limit_hit"
  | .hardLimitHitMem .. => "hard_limit_hit"
  | .softLimitHitIo .. => "soft_limit_hit"
  | .hardLimitHitIo .. => "hard_limit_hit"
  | .mlAdjustment .. => "ml_adjustment"
  | .mlEffective .. => "ml_effective"
  | .mlNoImprovement .. => "ml_no_improvement"
  | .memoryEvent .. => "memory_event"
  | .memoryCritical .. => "memory_critical"
  | .cpuThrottle .. => "cpu_throttle"
  | .ioPressure .. => "io_pressure"

/-- Controller training sample (`record_training_sample` payload). -/
structure Sample where
  container : String
  cpu_soft_quota_us : Option Int
  cpu_hard_quota_us : Int
  cpu_period_us : Int
  usage_usec : Int
  usage_delta_usec : Int
  throttled_usec : Int
  throttled_delta_usec : Int
  memory_current_bytes : Option Int
  memory_soft_bytes : Option Int
  memory_hard_bytes : Int
  io_metrics : List (String × Int)
  io_soft_rbps : Option Int
  io_soft_wbps : Option Int
  io_hard_rbps : Int
  io_hard_wbps : Int
  deriving DecidableEq, Repr

/-- An observable side effect, recorded in program order. -/
inductive Effect where
  | mkdirCgroup (path : String)
  | writeCpuMax (quota period : Int)
  | writeMemoryHigh (bytes : Int)
  | writeMemoryMax (bytes : Int)
  | writeIoMax (device : String) (rbps wbps : Int)
  | writeProcs (pid : Int)
  | journal (e : Event)
  | journalSample (s : Sample)
  | print (e : Event)
  deriving DecidableEq, Repr

/-- Effects that write bytes into a cgroup v2 file. -/
def Effect.isCgroupWrite : Effect → Bool
  | .writeCpuMax .. => true
  | .writeMemoryHigh .. => true
  | .writeMemoryMax .. => true
  | .writeIoMax .. => true
  | .writeProcs .. => true
  | _ => false

/-- Effects that append to the event or sample journal. -/
def Effect.isJournal : Effect → Bool
  | .journal _ => true
  | .journalSample _ => true
  | _ => false

/-- Effects that print to standard output. -/
def Effect.isPrint : Effect → Bool
  | .print _ => true
  | _ => false

/-- The exact string content `write_cpu_max` writes to `cpu.max`:
`f"{quota} {period}"`. -/
def cpuMaxContent (quota period : Int) : String :=
  toString quota ++ " " ++ toString period

/-- `Controller.emit` / `PressureAgent.emit`: print the payload in dry-run,
append it to the events journal otherwise. -/
def emitE (dry : Bool) (e : Event) : Effect :=
  if dry then .print e else .journal e

end Containers

namespace Containers.MlPolicy

/-- `SoftLimitPolicy.suggest` (src/controller/ml_policy.py lines 18-33).
The feature dictionary only feeds the opaque regressor, whose output for
this call is the parameter `predicted`. -/
def suggest (predicted : ℚ) (hard_cap : Int) (current_soft : Option Int) :
    Option Int :=
  match current_soft with
  | none => none
  | some cs =>
    if predicted ≤ (cs : ℚ) then none
    else some (pyTrunc (pyMinQ predicted (hard_cap : ℚ)))

end Containers.MlPolicy

namespace Containers.Controller

open Containers

/-- `cpu:` block of a container's configuration. -/
structure CpuCfg where
  soft_quota_us : Int
  hard_quota_us : Int
  period_us : Int
  adjust_step_us : Int
  pids : List Int := []
  deriving DecidableEq, Repr

/-- `memory:` block of a container's configuration. -/
structure MemCfg where
  soft_bytes : Int
  hard_bytes : Int
  adjust_step_bytes : Int
  deriving DecidableEq, Repr

/-- `io:` block of a container's configuration. -/
structure IoCfg where
  device : String
  soft_rbps : Int
  soft_wbps : Int
  hard_rbps : Int
  hard_wbps : Int
  adjust_step_bps : Int
  deriving DecidableEq, Repr

/-- One container's configuration payload. -/
structure ContainerCfg where
  cgroup_path : String
  cpu : CpuCfg
  memory : MemCfg
  io : IoCfg
  deriving DecidableEq, Repr

/-- `pending_eval` bookkeeping (the `time` float of the source dictionary is
wall clock and omitted). -/
structure PendingEval where
  prev_delta : Int
  new_soft : Int
  previous_soft : Int
  deriving DecidableEq, Repr

/-- `ResourceState` (controller.py lines 32-40).  `last_cpu_usage` and
`last_cpu_throttled` are always assigned together (lines 217-218), so they
are bundled into one optional pair. -/
structure CtrlState where
  cpu_soft : Option Int := none
  last_cpu : Option (Int × Int) := none
  memory_soft : Option Int := none
  io_soft_rbps : Option Int := none
  io_soft_wbps : Option Int := none
  pending_eval : Option PendingEval := none
  deriving DecidableEq, Repr

/-- A Python exception escaping a controller method. -/
inductive CtrlErr where
  | configError
  | valueError
  | typeError
  | writeFail
  deriving DecidableEq, Repr

/-- Result of a stateful controller method: on a raise, the error carries the
in-memory state and the effects that had already happened. -/
abbrev CtrlRes (α : Type) := Except (CtrlErr × CtrlState × List Effect) (α × CtrlState × List Effect)

/-- `Controller.parse_key_value` (controller.py lines 361-367): lines with a
space are unpacked by `line.split()` into exactly two names; any other token
count raises `ValueError` (modelled as the error case). -/
def parse_key_value (lines : List String) :
    Except CtrlErr (List (String × String)) :=
  lines.foldlM (fun result line =>
    if hasSpace line then
      match pyWords line with
      | [key, value] => .ok (upsert result key value)
      | _ => .error .valueError
    else .ok result) []

/-- `Controller.parse_io_stat` (controller.py lines 369-378): the first line
starting with the device; remaining tokens split at `=` into key and integer
value (`ValueError` on a malformed pair or integer). -/
def parse_io_stat (lines : List String) (device : String) :
    Except CtrlErr (List (String × Int)) :=
  match lines with
  | [] => .ok []
  | line :: rest =>
    if startsWith device line then
      (pyWords line).tail.foldlM (fun metrics pair =>
        match pySplitOn '=' pair with
        | [k, v] =>
          match pyParseInt v with
          | some n => .ok (upsert metrics k n)
          | none => .error .valueError
        | _ => .error .valueError) []
    else parse_io_stat rest device

/-- `Controller.write_cpu_max` (lines 127-130): no-op in dry-run, otherwise a
`cpu.max` write that may raise `OSError` (`writeOk = false`). -/
def write_cpu_max (dry writeOk : Bool) (quota period : Int) :
    Except CtrlErr (List Effect) :=
  if dry then .ok []
  else if writeOk then .ok [.writeCpuMax quota period]
  else .error .writeFail

/-- `Controller.write_memory_limits` (lines 132-136). -/
def write_memory_limits (dry writeOk : Bool) (soft hard : Int) :
    Except CtrlErr (List Effect) :=
  if dry then .ok []
  else if writeOk then .ok [.writeMemoryHigh soft, .writeMemoryMax hard]
  else .error .writeFail

/-- `Controller.write_io_limit` (lines 138-142). -/
def write_io_limit (dry writeOk : Bool) (io_cfg : IoCfg) (rbps wbps : Int) :
    Except CtrlErr (List Effect) :=
  if dry then .ok []
  else if writeOk then .ok [.writeIoMax io_cfg.device rbps wbps]
  else .error .writeFail

/-- `Controller.attach_pids` (lines 120-125): per pid an `info` event, then a
`cgroup.procs` write unless dry-run. -/
def attach_pids (dry : Bool) (pids : List Int) : List Effect :=
  pids.flatMap (fun pid =>
    emitE dry (.info pid "cgroup") ::
      (if dry then [] else [.writeProcs pid]))

/-- CPU block of `Controller.ensure_base_limits` (controller.py lines
91-105): mkdir the cgroup directory (unconditionally, dry-run included),
validate CPU `soft ≤ hard` (raising `ValueError` otherwise), on an unknown
applied soft value write `cpu.max` and record it, then attach configured
pids. -/
def ensure_cpu (dry writeOk : Bool) (c : ContainerCfg) (st : CtrlState) :
    Except (CtrlErr × CtrlState × List Effect) (CtrlState × List Effect) :=
  let effs0 : List Effect := [.mkdirCgroup c.cgroup_path]
  if c.cpu.soft_quota_us > c.cpu.hard_quota_us then
    .error (.configError, st, effs0)
  else
    let cpuStep : Except (CtrlErr × CtrlState × List Effect)
        (CtrlState × List Effect) :=
      if st.cpu_soft = none then
        match write_cpu_max dry writeOk c.cpu.soft_quota_us c.cpu.period_us with
        | .error e => .error (e, st, effs0)
        | .ok w => .ok ({ st with cpu_soft := some c.cpu.soft_quota_us },
            effs0 ++ w)
      else .ok (st, effs0)
    match cpuStep with
    | .error e => .error e
    | .ok (st1, effs1a) =>
      .ok (st1, effs1a ++
        (if c.cpu.pids = [] then [] else attach_pids dry c.cpu.pids))

/-- Memory block of `Controller.ensure_base_limits` (controller.py lines
107-112): validate memory `soft ≤ hard`, and on an unknown applied soft
value write `memory.high`/`memory.max` and record it. -/
def ensure_memory (dry writeOk : Bool) (c : ContainerCfg) (st1 : CtrlState)
    (effs1 : List Effect) :
    Except (CtrlErr × CtrlState × List Effect) (CtrlState × List Effect) :=
  if c.memory.soft_bytes > c.memory.hard_bytes then
    .error (.configError, st1, effs1)
  else
    if st1.memory_soft = none then
      match write_memory_limits dry writeOk c.memory.soft_bytes
          c.memory.hard_bytes with
      | .error e => .error (e, st1, effs1)
      | .ok w => .ok ({ st1 with memory_soft := some c.memory.soft_bytes },
          effs1 ++ w)
    else .ok (st1, effs1)

/-- I/O block of `Controller.ensure_base_limits` (controller.py lines
114-118): on an unknown applied soft value write `io.max` and record both
directions.  No `soft ≤ hard` validation is performed for I/O. -/
def ensure_io (dry writeOk : Bool) (c : ContainerCfg) (st2 : CtrlState)
    (effs2 : List Effect) :
    Except (CtrlErr × CtrlState × List Effect) (CtrlState × List Effect) :=
  if st2.io_soft_rbps = none then
    match write_io_limit dry writeOk c.io c.io.soft_rbps c.io.soft_wbps with
    | .error e => .error (e, st2, effs2)
    | .ok w =>
      .ok ({ st2 with io_soft_rbps := some c.io.soft_rbps,
                      io_soft_wbps := some c.io.soft_wbps }, effs2 ++ w)
  else .ok (st2, effs2)

/-- `Controller.ensure_base_limits` (controller.py lines 91-118): the CPU,
memory and I/O blocks in source order.  Note there is no print of the
skipped writes in dry-run. -/
def ensure_base_limits (dry writeOk : Bool) (c : ContainerCfg)
    (st : CtrlState) :
    Except (CtrlErr × CtrlState × List Effect) (CtrlState × List Effect) :=
  match ensure_cpu dry writeOk c st with
  | .error e => .error e
  | .ok (st1, effs1) =>
    match ensure_memory dry writeOk c st1 effs1 with
    | .error e => .error e
    | .ok (st2, effs2) => ensure_io dry writeOk c st2 effs2

/-- The metadata dictionary returned by `Controller.adjust_cpu`. -/
structure CpuMeta where
  usage_delta : Int
  throttled_delta : Int
  usage : Int
  throttled : Int
  soft : Option Int
  deriving DecidableEq, Repr

/-- `Controller.suggest_cpu_soft_limit` (controller.py lines 227-251):
returns `None` when no policy is loaded, otherwise delegates to
`SoftLimitPolicy.suggest`.  The feature dictionary built from the ratios
only feeds the opaque regressor, whose output is the parameter
`predicted`. -/
def suggest_cpu_soft_limit (predicted : Option ℚ) (hard_cap soft : Int) :
    Option Int :=
  match predicted with
  | none => none
  | some p => MlPolicy.suggest p hard_cap (some soft)

/-- The raised CPU soft quota of controller.py line 185:
`suggested or min(state.cpu_soft + cpu["adjust_step_us"], cpu["hard_quota_us"])`. -/
def cpu_raise_target (cpu : CpuCfg) (s : Int) (predicted : Option ℚ) : Int :=
  pyOrInt (suggest_cpu_soft_limit predicted cpu.hard_quota_us s)
    (pyMinI (s + cpu.adjust_step_us) cpu.hard_quota_us)

/-- `Controller.adjust_cpu` (controller.py lines 147-225).  `stat` is the
parsed `cpu.stat` dictionary (empty when the file was absent); `predicted`
is the opaque regressor's output for this tick's feature vector (`none`
when no policy is loaded).  A `None` comparison (`state.cpu_soft < hard`
with an unset soft value) models Python's `TypeError`. -/
def adjust_cpu (dry writeOk : Bool) (name : String) (cpu : CpuCfg)
    (st : CtrlState) (stat : List (String × String)) (predicted : Option ℚ) :
    Except (CtrlErr × CtrlState × List Effect)
      (CpuMeta × CtrlState × List Effect) :=
  if stat = [] then
    .ok (⟨0, 0, 0, 0, st.cpu_soft⟩, st, [])
  else
    match pyIntField stat "usage_usec", pyIntField stat "throttled_usec" with
    | some usage, some throttled =>
      match st.last_cpu with
      | none =>
        .ok (⟨0, 0, usage, throttled, st.cpu_soft⟩,
             { st with last_cpu := some (usage, throttled) }, [])
      | some (lastUsage, lastThrottled) =>
        let usage_delta := pyMaxI (usage - lastUsage) 0
        let throttled_delta := pyMaxI (throttled - lastThrottled) 0
        let evalEffs : List Effect :=
          match st.pending_eval with
          | some prev =>
            let improvement := prev.prev_delta - throttled_delta
            if throttled_delta < prev.prev_delta then
              [emitE dry (.mlEffective name prev.prev_delta throttled_delta
                prev.new_soft improvement)]
            else
              [emitE dry (.mlNoImprovement name prev.prev_delta
                throttled_delta prev.new_soft improvement)]
          | none => []
        let st0 := { st with pending_eval := none }
        match st0.cpu_soft with
        | none =>
          if throttled_delta > 0 then .error (.typeError, st0, evalEffs)
          else
            .ok (⟨usage_delta, throttled_delta, usage, throttled, none⟩,
                 { st0 with last_cpu := some (usage, throttled) }, evalEffs)
        | some s =>
          if throttled_delta > 0 ∧ s < cpu.hard_quota_us then
            let suggested : Option Int :=
              suggest_cpu_soft_limit predicted cpu.hard_quota_us s
            let ml_used := suggested.isSome
            let previous_soft := s
            let new_soft := cpu_raise_target cpu s predicted
            let effs1 := evalEffs ++ [emitE dry (.softLimitHitCpu name new_soft)]
            let st1 := { st0 with cpu_soft := some new_soft }
            match write_cpu_max dry writeOk new_soft cpu.period_us with
            | .error e => .error (e, st1, effs1)
            | .ok w =>
              let effs2 := effs1 ++ w
              if ml_used then
                .ok (⟨usage_delta, throttled_delta, usage, throttled,
                      some new_soft⟩,
                     { st1 with
                        pending_eval := some ⟨throttled_delta, new_soft,
                          previous_soft⟩,
                        last_cpu := some (usage, throttled) },
                     effs2 ++ [emitE dry (.mlAdjustment name previous_soft
                       new_soft throttled_delta)])
              else
                .ok (⟨usage_delta, throttled_delta, usage, throttled,
                      some new_soft⟩,
                     { st1 with last_cpu := some (usage, throttled) }, effs2)
          else if throttled_delta > 0 ∧ s ≥ cpu.hard_quota_us then
            .ok (⟨usage_delta, throttled_delta, usage, throttled, some s⟩,
                 { st0 with last_cpu := some (usage, throttled) },
                 evalEffs ++ [emitE dry (.hardLimitHitCpu name
                   cpu.hard_quota_us)])
          else
            .ok (⟨usage_delta, throttled_delta, usage, throttled, some s⟩,
                 { st0 with last_cpu := some (usage, throttled) }, evalEffs)
    | _, _ => .error (.valueError, st, [])

/-- The metadata dictionary returned by `Controller.adjust_memory` (the
`hard` entry of the source dictionary always equals the configured
`hard_bytes` and is dropped). -/
structure MemMeta where
  current : Option Int
  soft : Option Int
  deriving DecidableEq, Repr

/-- `Controller.adjust_memory` (controller.py lines 253-278).  The float
comparison `current_val >= state.memory_soft * 0.95` is modelled as the
exact rational inequality `19 * soft ≤ 20 * current` (binary-float rounding
of `0.95` is not modelled). -/
def adjust_memory (dry writeOk : Bool) (name : String) (memory : MemCfg)
    (st : CtrlState) (current_val : Option Int) :
    Except (CtrlErr × CtrlState × List Effect)
      (MemMeta × CtrlState × List Effect) :=
  match current_val with
  | none => .ok (⟨none, st.memory_soft⟩, st, [])
  | some current =>
    let soft := match st.memory_soft with
      | some s => s
      | none => memory.soft_bytes
    let st0 := { st with memory_soft := some soft }
    if 19 * soft ≤ 20 * current ∧ soft < memory.hard_bytes then
      let new_soft := pyMinI (soft + memory.adjust_step_bytes)
        memory.hard_bytes
      let effs := [emitE dry (.softLimitHitMem name new_soft)]
      let st1 := { st0 with memory_soft := some new_soft }
      match write_memory_limits dry writeOk new_soft memory.hard_bytes with
      | .error e => .error (e, st1, effs)
      | .ok w => .ok (⟨some current, some new_soft⟩, st1, effs ++ w)
    else if current ≥ memory.hard_bytes then
      .ok (⟨some current, some soft⟩, st0,
           [emitE dry (.hardLimitHitMem name current)])
    else
      .ok (⟨some current, some soft⟩, st0, [])

/-- The metadata dictionary returned by `Controller.adjust_io` (the hard
limits of the source's full-path dictionary always equal the configured
values and are dropped). -/
structure IoMeta where
  metrics : List (String × Int)
  soft_rbps : Option Int
  soft_wbps : Option Int
  deriving DecidableEq, Repr

/-- `Controller.adjust_io` (controller.py lines 280-319).  `metrics` is the
parsed device row of `io.stat` (empty when the file was absent or the
device row missing).  Comparing an unset soft value models `TypeError`. -/
def adjust_io (dry writeOk : Bool) (name : String) (io_cfg : IoCfg)
    (st : CtrlState) (metrics : List (String × Int)) :
    Except (CtrlErr × CtrlState × List Effect)
      (IoMeta × CtrlState × List Effect) :=
  if metrics = [] then
    .ok (⟨[], st.io_soft_rbps, st.io_soft_wbps⟩, st, [])
  else
    match st.io_soft_rbps, st.io_soft_wbps with
    | some softR, some softW =>
      let rbps := getD metrics "rbps" 0
      let wbps := getD metrics "wbps" 0
      let hitR := rbps ≥ softR ∧ softR < io_cfg.hard_rbps
      let hitW := wbps ≥ softW ∧ softW < io_cfg.hard_wbps
      let new_r := if hitR then
          pyMinI (softR + io_cfg.adjust_step_bps) io_cfg.hard_rbps
        else softR
      let new_w := if hitW then
          pyMinI (softW + io_cfg.adjust_step_bps) io_cfg.hard_wbps
        else softW
      if hitR ∨ hitW then
        let st1 := { st with io_soft_rbps := some new_r,
                             io_soft_wbps := some new_w }
        let effs := [emitE dry (.softLimitHitIo name new_r new_w)]
        match write_io_limit dry writeOk io_cfg new_r new_w with
        | .error e => .error (e, st1, effs)
        | .ok w => .ok (⟨metrics, some new_r, some new_w⟩, st1, effs ++ w)
      else if rbps ≥ io_cfg.hard_rbps ∨ wbps ≥ io_cfg.hard_wbps then
        .ok (⟨metrics, some softR, some softW⟩, st,
             [emitE dry (.hardLimitHitIo name rbps wbps)])
      else
        .ok (⟨metrics, some softR, some softW⟩, st, [])
    | _, _ => .error (.typeError, st, [])

/-- `Controller.record_training_sample` (controller.py lines 321-359):
no-op in dry-run or without a configured samples sink, otherwise one
sample journal append. -/
def record_training_sample (dry hasSink : Bool) (name : String)
    (c : ContainerCfg) (cpu_meta : CpuMeta) (mem_meta : MemMeta)
    (io_meta : IoMeta) : List Effect :=
  if dry || !hasSink then []
  else
    [.journalSample
      { container := name
        cpu_soft_quota_us := cpu_meta.soft
        cpu_hard_quota_us := c.cpu.hard_quota_us
        cpu_period_us := c.cpu.period_us
        usage_usec := cpu_meta.usage
        usage_delta_usec := cpu_meta.usage_delta
        throttled_usec := cpu_meta.throttled
        throttled_delta_usec := cpu_meta.throttled_delta
        memory_current_bytes := mem_meta.current
        memory_soft_bytes := mem_meta.soft
        memory_hard_bytes := c.memory.hard_bytes
        io_metrics := io_meta.metrics
        io_soft_rbps := io_meta.soft_rbps
        io_soft_wbps := io_meta.soft_wbps
        io_hard_rbps := c.io.hard_rbps
        io_hard_wbps := c.io.hard_wbps }]

/-- The per-tick external readings of one container: the raw lines of
`cpu.stat` and `io.stat` (`none` = file absent), the parsed
`memory.current`, the opaque regressor's prediction, and whether cgroupfs
writes succeed this tick. -/
structure TickInput where
  cpu_lines : Option (List String) := none
  memory_current : Option Int := none
  io_lines : Option (List String) := none
  predicted : Option ℚ := none
  writeOk : Bool := true
  deriving DecidableEq, Repr

/-- One controller loop iteration for one container (`Controller.run`,
lines 65-72: `ensure_base_limits`, `collect_stats`, `adjust_cpu`,
`adjust_memory`, `adjust_io`, `record_training_sample`).  Any exception
aborts the iteration (and, in the source, the whole loop). -/
def controller_tick (dry hasSink : Bool) (name : String) (c : ContainerCfg)
    (st : CtrlState) (inp : TickInput) :
    Except (CtrlErr × CtrlState × List Effect) (CtrlState × List Effect) :=
  match ensure_base_limits dry inp.writeOk c st with
  | .error e => .error e
  | .ok (st1, effs1) =>
    let statE : Except CtrlErr (List (String × String)) :=
      match inp.cpu_lines with
      | none => .ok []
      | some lines => parse_key_value lines
    match statE with
    | .error e => .error (e, st1, effs1)
    | .ok stat =>
      let ioE : Except CtrlErr (List (String × Int)) :=
        match inp.io_lines with
        | none => .ok []
        | some lines => parse_io_stat lines c.io.device
      match ioE with
      | .error e => .error (e, st1, effs1)
      | .ok io_metrics =>
        match adjust_cpu dry inp.writeOk name c.cpu st1 stat inp.predicted with
        | .error (e, st', effs') => .error (e, st', effs1 ++ effs')
        | .ok (cpu_meta, st2, effs2) =>
          match adjust_memory dry inp.writeOk name c.memory st2
              inp.memory_current with
          | .error (e, st', effs') => .error (e, st', effs1 ++ effs2 ++ effs')
          | .ok (mem_meta, st3, effs3) =>
            match adjust_io dry inp.writeOk name c.io st3 io_metrics with
            | .error (e, st', effs') =>
              .error (e, st', effs1 ++ effs2 ++ effs3 ++ effs')
            | .ok (io_meta, st4, effs4) =>
              .ok (st4, effs1 ++ effs2 ++ effs3 ++ effs4 ++
                record_training_sample dry hasSink name c cpu_meta mem_meta
                  io_meta)

/-- A run of the controller loop on one container over a list of tick
inputs; the first uncaught exception terminates the run (as in the source,
where only `KeyboardInterrupt` is caught). -/
def controller_run (dry hasSink : Bool) (name : String) (c : ContainerCfg) :
    CtrlState → List TickInput →
    Except (CtrlErr × CtrlState × List Effect) CtrlState
  | st, [] => .ok st
  | st, inp :: rest =>
    match controller_tick dry hasSink name c st inp with
    | .error e => .error e
    | .ok (st', _) => controller_run dry hasSink name c st' rest

/-- The side effects a controller step performed, whether it returned or
raised. -/
def effectsOf {α : Type}
    (r : Except (CtrlErr × CtrlState × List Effect) (α × CtrlState × List Effect)) :
    List Effect :=
  match r with
  | .ok (_, _, effs) => effs
  | .error (_, _, effs) => effs

/-- Like `effectsOf` for `ensure_base_limits`, whose success value is just
state and effects. -/
def effectsOfE
    (r : Except (CtrlErr × CtrlState × List Effect) (CtrlState × List Effect)) :
    List Effect :=
  match r with
  | .ok (_, effs) => effs
  | .error (_, _, effs) => effs

end Containers.Controller

namespace Containers

/-- The rational 10000.5 (exactly representable as an IEEE-754 double, so a
regressor can return it verbatim). -/
def predHalf : ℚ := ⟨20001, 2, by decide, by decide⟩

end Containers

namespace Containers.Agent

open Containers

/-- A Python exception escaping an agent method. -/
inductive AgentErr where
  | valueError
  deriving DecidableEq, Repr

/-- `PressureAgent.parse_key_value` (agent.py lines 158-164): textually the
same parser as the controller's, with the same two-token unpacking that
raises `ValueError` on any other token count. -/
def parse_key_value (lines : List String) :
    Except AgentErr (List (String × String)) :=
  lines.foldlM (fun data line =>
    if hasSpace line then
      match pyWords line with
      | [key, value] => .ok (upsert data key value)
      | _ => .error .valueError
    else .ok data) []

/-- The fixed key tuple of `detect_memory_events`. -/
def memKeys : List String := ["low", "high", "max", "oom", "oom_kill"]

/-- `PressureAgent.detect_memory_events` (agent.py lines 87-103).
`previous` is `self.last_memory_events.get(name, {})`, so the first tick
passes the empty dictionary.  Returns the new stored baseline and the
emitted effects; an error carries the effects emitted before the raise. -/
def detect_memory_events (dry : Bool) (container : String)
    (stats : List (String × String)) (previous : List (String × Int)) :
    Except (AgentErr × List Effect) (List (String × Int) × List Effect) :=
  let effsE : Except AgentErr (List Effect) :=
    memKeys.foldlM (fun effs key =>
      match pyIntField stats key with
      | none => .error .valueError
      | some current =>
        let delta := current - getD previous key 0
        if delta > 0 then
          if key = "oom" ∨ key = "oom_kill" then
            .ok (effs ++ [emitE dry (.memoryCritical container key delta)])
          else
            .ok (effs ++ [emitE dry (.memoryEvent container key delta)])
        else .ok effs) []
  match effsE with
  | .error e => .error (e, [])
  | .ok effs =>
    match stats.mapM (fun kv => (pyParseInt kv.2).map (fun n => (kv.1, n))) with
    | none => .error (.valueError, effs)
    | some baseline => .ok (baseline, effs)

/-- `PressureAgent.detect_cpu_throttle` (agent.py lines 105-122).  `last` is
`self.last_cpu_throttled.get(name, 0)`, so the first tick passes `0`.  The
delta is the raw difference (not clamped).  Returns the metrics dictionary,
the new stored total and the emitted effects. -/
def detect_cpu_throttle (dry : Bool) (container : String)
    (stats : List (String × String)) (last : Int) :
    Except (AgentErr × List Effect)
      (List (String × Int) × Int × List Effect) :=
  match pyIntField stats "nr_throttled" with
  | none => .error (.valueError, [])
  | some throttled =>
    let delta := throttled - last
    let effs := if delta > 0 then
        [emitE dry (.cpuThrottle container delta throttled)] else []
    let m0 : List (String × Int) := [("nr_throttled", throttled)]
    match (match getS stats "usage_usec" with
           | none => some m0
           | some s => (pyParseInt s).map (fun n => upsert m0 "usage_usec" n)) with
    | none => .error (.valueError, effs)
    | some m1 =>
      match (match getS stats "throttled_usec" with
             | none => some m1
             | some s =>
               (pyParseInt s).map (fun n => upsert m1 "throttled_usec" n)) with
      | none => .error (.valueError, effs)
      | some m2 => .ok (m2, throttled, effs)

/-- `PressureAgent.detect_io_slowdown` (agent.py lines 124-145).  Sums all
device rows into one key-to-integer map, computes raw deltas against the
previous sample (`self.last_io_stat.get(name, {})`, empty on the first
tick), and emits `io_pressure` with the full delta map when any key ending
in `wait` has a positive delta.  Deltas are not clamped. -/
def detect_io_slowdown (dry : Bool) (container : String)
    (lines : List String) (previous : List (String × Int)) :
    Except (AgentErr × List Effect) (List (String × Int) × List Effect) :=
  if lines = [] then .ok ([], [])
  else
    let statsE : Except AgentErr (List (String × Int)) :=
      lines.foldlM (fun stats line =>
        match pyWords line with
        | [] => .ok stats
        | _ :: pairs =>
          pairs.foldlM (fun stats pair =>
            match pySplitOn '=' pair with
            | [k, v] =>
              match pyParseInt v with
              | some n => .ok (upsertAdd stats k n)
              | none => .error .valueError
            | _ => .error .valueError) stats) []
    match statsE with
    | .error e => .error (e, [])
    | .ok stats =>
      let deltas := stats.map (fun kv => (kv.1, kv.2 - getD previous kv.1 0))
      let effs :=
        if deltas.any (fun kv => endsWithWait kv.1 && decide (kv.2 > 0)) then
          [emitE dry (.ioPressure container deltas)] else []
      .ok (stats, effs)

end Containers.Agent

namespace Containers

/-! ### Helper lemmas about the Python-semantics primitives -/

theorem pyMinI_le_left (a b : Int) : pyMinI a b ≤ a := by
  unfold pyMinI; split <;> omega

theorem pyMinI_le_right (a b : Int) : pyMinI a b ≤ b := by
  unfold pyMinI; split <;> omega

theorem le_pyMinI {c a b : Int} (h1 : c ≤ a) (h2 : c ≤ b) : c ≤ pyMinI a b := by
  unfold pyMinI; split <;> omega

theorem pyMaxI_zero_nonneg (a : Int) : 0 ≤ pyMaxI a 0 := by
  unfold pyMaxI; split <;> omega

theorem pyMinQ_le_right (a b : ℚ) : pyMinQ a b ≤ b := by
  unfold pyMinQ; split
  · assumption
  · exact le_refl b

theorem pyTrunc_eq_floor {q : ℚ} (h : 0 ≤ q) : pyTrunc q = ⌊q⌋ := by
  unfold pyTrunc
  rw [Rat.floor_def]
  exact Int.tdiv_eq_ediv (Rat.num_nonneg.mpr h) (Int.natCast_nonneg _)

theorem pyTrunc_nonpos {q : ℚ} (h : q ≤ 0) : pyTrunc q ≤ 0 := by
  unfold pyTrunc
  have hnum : q.num ≤ 0 := Rat.num_nonpos.mpr h
  have : (0 : Int) ≤ (-q.num).tdiv (q.den : Int) :=
    Int.tdiv_nonneg (by omega) (Int.natCast_nonneg _)
  rw [Int.neg_tdiv] at this
  omega

theorem pyTrunc_intCast (n : Int) : pyTrunc ((n : ℚ)) = n := by
  unfold pyTrunc
  rw [Rat.intCast_num, Rat.intCast_den]
  exact Int.tdiv_one n

theorem le_pyTrunc {n : Int} {q : ℚ} (hn : 0 ≤ n) (h : (n : ℚ) < q) :
    n ≤ pyTrunc q := by
  have hq : 0 ≤ q := le_trans (by exact_mod_cast hn) (le_of_lt h)
  rw [pyTrunc_eq_floor hq]
  exact Int.le_floor.mpr (le_of_lt h)

theorem pyTrunc_le {hard : Int} {q : ℚ} (hh : 0 ≤ hard) (h : q ≤ (hard : ℚ)) :
    pyTrunc q ≤ hard := by
  rcases le_or_lt 0 q with hq | hq
  · rw [pyTrunc_eq_floor hq]
    calc ⌊q⌋ ≤ ⌊((hard : ℚ))⌋ := Int.floor_le_floor h
      _ = hard := Int.floor_intCast hard
  · exact le_trans (pyTrunc_nonpos (le_of_lt hq)) hh

end Containers

namespace Containers.MlPolicy

/-! ### Lemmas about `SoftLimitPolicy.suggest` -/

theorem suggest_some_eq_ite (p : ℚ) (hard cs : Int) :
    suggest p hard (some cs) =
      (if p ≤ (cs : ℚ) then none
       else some (pyTrunc (pyMinQ p (hard : ℚ)))) := rfl

theorem suggest_of_le {p : ℚ} {hard cs : Int} (h : p ≤ (cs : ℚ)) :
    suggest p hard (some cs) = none := by
  rw [suggest_some_eq_ite, if_pos h]

theorem suggest_of_lt {p : ℚ} {hard cs : Int} (h : (cs : ℚ) < p) :
    suggest p hard (some cs) = some (pyTrunc (pyMinQ p (hard : ℚ))) := by
  rw [suggest_some_eq_ite, if_neg (not_le.mpr h)]

theorem suggest_some_lt {p : ℚ} {hard cs V : Int}
    (hE : suggest p hard (some cs) = some V) : (cs : ℚ) < p := by
  rw [suggest_some_eq_ite] at hE
  by_cases h : p ≤ (cs : ℚ)
  · rw [if_pos h] at hE; exact absurd hE (by simp)
  · exact not_le.mp h

theorem suggest_some_val {p : ℚ} {hard cs V : Int}
    (hE : suggest p hard (some cs) = some V) :
    V = pyTrunc (pyMinQ p (hard : ℚ)) := by
  rw [suggest_of_lt (suggest_some_lt hE)] at hE
  exact (Option.some.inj hE).symm

theorem suggest_le_hard {p : ℚ} {hard cs V : Int} (hh : 0 ≤ hard)
    (hE : suggest p hard (some cs) = some V) : V ≤ hard := by
  rw [suggest_some_val hE]
  exact pyTrunc_le hh (pyMinQ_le_right _ _)

theorem le_suggest {p : ℚ} {hard cs V : Int} (hcs : 0 ≤ cs) (hch : cs ≤ hard)
    (hE : suggest p hard (some cs) = some V) : cs ≤ V := by
  have hlt : (cs : ℚ) < p := suggest_some_lt hE
  rw [suggest_some_val hE]
  unfold pyMinQ
  split
  · exact le_pyTrunc hcs hlt
  · rw [pyTrunc_intCast]; exact hch

end Containers.MlPolicy

namespace Containers

open Containers.Controller Containers.Agent Containers.MlPolicy

/-- C7: the claim says a statistics line with more than two
whitespace-separated tokens is skipped (treated as absent, with a
malformed-read event).  The source `parse_key_value` of both processes
instead unpacks `line.split()` into exactly two names, so such a line
raises an uncaught `ValueError` that terminates the loop; no
malformed-read event type exists anywhere in the source.  This theorem
evaluates both parsers at the failing input. -/
theorem claim_C7 :
    Controller.parse_key_value ["usage_usec 100 extra"] =
      .error Controller.CtrlErr.valueError ∧
    Agent.parse_key_value ["usage_usec 100 extra"] =
      .error Agent.AgentErr.valueError ∧
    Controller.parse_key_value ["usage_usec 100", "nr_periods 7 7 7"] =
      .error Controller.CtrlErr.valueError := by decide

/-- C4: the claim says every cumulative-counter delta is clamped to be
`≥ 0` everywhere and every delta carried in an emitted payload is `≥ 0`.
The observer's `detect_io_slowdown` computes raw deltas: after a first tick
reading `8:0 rbytes=100 rwait=5` and a second reading
`8:0 rbytes=50 rwait=10` (a counter reset), the emitted `io_pressure`
payload carries the negative delta `rbytes = -50`. -/
theorem claim_C4 :
    Agent.detect_io_slowdown false "web" ["8:0 rbytes=100 rwait=5"] [] =
      .ok ([("rbytes", 100), ("rwait", 5)],
        [.journal (.ioPressure "web" [("rbytes", 100), ("rwait", 5)])]) ∧
    Agent.detect_io_slowdown false "web" ["8:0 rbytes=50 rwait=10"]
        [("rbytes", 100), ("rwait", 5)] =
      .ok ([("rbytes", 50), ("rwait", 10)],
        [.journal (.ioPressure "web" [("rbytes", -50), ("rwait", 5)])]) ∧
    getS [("rbytes", (-50 : Int)), ("rwait", 5)] "rbytes" = some (-50) ∧
    ¬ ((0 : Int) ≤ -50) := by decide

/-- C5 (counterexample): the claim says a returned value `V` satisfies
`current_soft < V`.  With `current_soft = 10000`, `hard_cap = 50000` and a
prediction of `10000.5`, the prediction is strictly greater than
`current_soft`, yet `int(min(predicted, hard_cap))` truncates back down to
`10000`, which is not strictly greater than `current_soft`. -/
theorem claim_C5_cex :
    MlPolicy.suggest predHalf 50000 (some 10000) = some 10000 ∧
    ((10000 : Int) : ℚ) < predHalf ∧
    ¬ ((10000 : Int) < 10000) := by decide

/-- C5 (amended): `suggest` returns `none` when `current_soft` is `None` or
when the prediction is not strictly greater than `current_soft`; when the
prediction is strictly greater it returns `int(min(predicted, hard_cap))`,
and — provided `0 ≤ current_soft ≤ hard_cap` — any returned value `V`
satisfies `current_soft ≤ V ≤ hard_cap` (equality `V = current_soft` is
possible through the integer truncation, so `current_soft < V` does not
hold in general). -/
theorem claim_C5 (p : ℚ) (hard cs : Int) (hcs : 0 ≤ cs) (hch : cs ≤ hard) :
    MlPolicy.suggest p hard none = none ∧
    (p ≤ (cs : ℚ) → MlPolicy.suggest p hard (some cs) = none) ∧
    ((cs : ℚ) < p →
      MlPolicy.suggest p hard (some cs) =
        some (pyTrunc (pyMinQ p (hard : ℚ)))) ∧
    (∀ V, MlPolicy.suggest p hard (some cs) = some V →
      cs ≤ V ∧ V ≤ hard ∧ (cs : ℚ) < p) := by
  refine ⟨rfl, fun h => suggest_of_le h, fun h => suggest_of_lt h, ?_⟩
  intro V hE
  exact ⟨le_suggest hcs hch hE,
    suggest_le_hard (le_trans hcs hch) hE,
    suggest_some_lt hE⟩

/-- C5 (witness): the amended theorem applied at a prediction of `22000`
against `current_soft = 15000`, `hard_cap = 50000`. -/
theorem claim_C5_w :
    ((0 : Int) ≤ 15000) ∧ ((15000 : Int) ≤ 50000) ∧
    (MlPolicy.suggest (((22000 : Int) : ℚ)) 50000 none = none ∧
     ((((22000 : Int) : ℚ)) ≤ ((15000 : Int) : ℚ) →
       MlPolicy.suggest (((22000 : Int) : ℚ)) 50000 (some 15000) = none) ∧
     (((15000 : Int) : ℚ) < (((22000 : Int) : ℚ)) →
       MlPolicy.suggest (((22000 : Int) : ℚ)) 50000 (some 15000) =
         some (pyTrunc (pyMinQ (((22000 : Int) : ℚ)) ((50000 : Int) : ℚ)))) ∧
     (∀ V, MlPolicy.suggest (((22000 : Int) : ℚ)) 50000 (some 15000) = some V →
       (15000 : Int) ≤ V ∧ V ≤ 50000 ∧ ((15000 : Int) : ℚ) < ((22000 : Int) : ℚ))) :=
  ⟨by decide, by decide, claim_C5 ((22000 : Int) : ℚ) 50000 15000 (by decide) (by decide)⟩

end Containers

namespace Containers

open Containers.Controller Containers.Agent

/-! ### First-tick (baseline) behaviour -/

theorem getD_nil {α : Type} (k : String) (d : α) : getD [] k d = d := rfl

theorem memFold_ok_eq (dry : Bool) (container : String)
    (stats : List (String × String)) (previous : List (String × Int)) :
    ∀ (ks : List String) (acc effs : List Effect),
    (∀ k ∈ ks, (pyIntField stats k).getD 0 ≤ getD previous k 0) →
    (ks.foldlM (fun effs key =>
      match pyIntField stats key with
      | none => Except.error AgentErr.valueError
      | some current =>
        let delta := current - getD previous key 0
        if delta > 0 then
          if key = "oom" ∨ key = "oom_kill" then
            .ok (effs ++ [emitE dry (.memoryCritical container key delta)])
          else
            .ok (effs ++ [emitE dry (.memoryEvent container key delta)])
        else .ok effs) acc) = .ok effs → effs = acc
  | [], acc, effs, _, hE => by
    simp [List.foldlM, pure, Except.pure] at hE; exact hE.symm
  | k :: ks, acc, effs, hz, hE => by
    simp only [List.foldlM] at hE
    rcases hcur : pyIntField stats k with _ | current
    · rw [hcur] at hE; simp [bind, Except.bind] at hE
    · rw [hcur] at hE
      have hle := hz k (List.mem_cons_self k ks)
      rw [hcur] at hle
      simp only [Option.getD_some] at hle
      simp only at hE
      split at hE
      · omega
      · simp only [bind, Except.bind] at hE
        exact memFold_ok_eq dry container stats previous ks acc effs
          (fun k' hk' => hz k' (List.mem_cons_of_mem k hk')) hE

theorem detect_memory_first_tick (dry : Bool) (container : String)
    (stats : List (String × String)) (baseline : List (String × Int))
    (effs : List Effect)
    (hz : ∀ k ∈ Agent.memKeys, (pyIntField stats k).getD 0 ≤ 0)
    (hE : Agent.detect_memory_events dry container stats [] =
      .ok (baseline, effs)) :
    effs = [] := by
  unfold Agent.detect_memory_events at hE
  dsimp only [] at hE
  split at hE
  · exact absurd hE (by simp)
  · rename_i effs0 hfold
    have h0 : effs0 = [] :=
      memFold_ok_eq dry container stats [] Agent.memKeys [] effs0
        (fun k hk => by rw [getD_nil]; exact hz k hk) hfold
    split at hE
    · exact absurd hE (by simp)
    · simp only [Except.ok.injEq, Prod.mk.injEq] at hE
      rw [← hE.2, h0]

theorem adjust_cpu_first_tick (dry writeOk : Bool) (name : String)
    (cpu : Controller.CpuCfg) (st : Controller.CtrlState)
    (stat : List (String × String)) (predicted : Option ℚ)
    (meta : Controller.CpuMeta) (st' : Controller.CtrlState)
    (effs : List Effect)
    (hlast : st.last_cpu = none)
    (hE : Controller.adjust_cpu dry writeOk name cpu st stat predicted =
      .ok (meta, st', effs)) :
    effs = [] := by
  unfold Controller.adjust_cpu at hE
  rw [hlast] at hE
  split at hE
  · simp only [Except.ok.injEq, Prod.mk.injEq] at hE
    exact hE.2.2.symm
  · split at hE
    · simp only [Except.ok.injEq, Prod.mk.injEq] at hE
      exact hE.2.2.symm
    · simp at hE

theorem detect_cpu_first_tick (dry : Bool) (container : String)
    (stats : List (String × String)) (m : List (String × Int)) (t : Int)
    (effs : List Effect)
    (hz : (pyIntField stats "nr_throttled").getD 0 ≤ 0)
    (hE : Agent.detect_cpu_throttle dry container stats 0 =
      .ok (m, t, effs)) :
    effs = [] := by
  unfold Agent.detect_cpu_throttle at hE
  rcases hn : pyIntField stats "nr_throttled" with _ | throttled <;>
    rw [hn] at hE
  · simp at hE
  · rw [hn] at hz
    simp only [Option.getD_some] at hz
    dsimp only [] at hE
    rw [if_neg (by omega : ¬ (throttled - 0 > 0))] at hE
    split at hE
    · exact absurd hE (by simp)
    · split at hE
      · exact absurd hE (by simp)
      · simp only [Except.ok.injEq, Prod.mk.injEq] at hE
        exact hE.2.2.symm

theorem detect_io_first_tick (dry : Bool) (container : String)
    (lines : List String) (stats : List (String × Int)) (effs : List Effect)
    (hE : Agent.detect_io_slowdown dry container lines [] =
      .ok (stats, effs))
    (hz : ∀ p ∈ stats, endsWithWait p.1 = true → p.2 ≤ 0) :
    effs = [] := by
  unfold Agent.detect_io_slowdown at hE
  split at hE
  · simp only [Except.ok.injEq, Prod.mk.injEq] at hE
    exact hE.2.symm
  · dsimp only [] at hE
    split at hE
    · exact absurd hE (by simp)
    · split at hE
      · rename_i stats0 hok hany
        simp only [Except.ok.injEq, Prod.mk.injEq] at hE
        obtain ⟨hstats, heffs⟩ := hE
        rw [List.any_eq_true] at hany
        obtain ⟨x, hxmem, hx⟩ := hany
        rw [List.mem_map] at hxmem
        obtain ⟨kv, hkv, hxeq⟩ := hxmem
        subst hxeq
        simp only [Bool.and_eq_true, decide_eq_true_eq] at hx
        have hv : kv.2 ≤ 0 :=
          hz (kv.1, kv.2) (by rw [← hstats]; exact hkv) hx.1
        have hg : getD ([] : List (String × Int)) kv.1 0 = 0 := rfl
        rw [hg] at hx
        omega
      · simp only [Except.ok.injEq, Prod.mk.injEq] at hE
        exact hE.2.symm

/-- C3 (counterexample): the claim says the first tick that samples a
container's cumulative counters emits no delta-based event in both
processes.  In the observer, `detect_memory_events` reads the previous
baseline with `self.last_memory_events.get(name, {})`, so the very first
tick compares against zero and a `memory.events` file already carrying
`oom_kill 1` emits `memory_critical` on the first tick. -/
theorem claim_C3_cex :
    Agent.detect_memory_events false "web" [("oom_kill", "1")] [] =
      .ok ([("oom_kill", 1)],
        [.journal (.memoryCritical "web" "oom_kill" 1)]) ∧
    Agent.detect_cpu_throttle false "web" [("nr_throttled", "3")] 0 =
      .ok ([("nr_throttled", 3)], 3,
        [.journal (.cpuThrottle "web" 3 3)]) := by decide

/-- C3 (amended): in the controller, a container's first tick (no stored
`last_cpu_usage`) emits no event from `adjust_cpu`.  In the observer the
missing baseline is treated as all-zero: the first tick emits nothing only
when every sampled cumulative counter is non-positive (memory event keys,
`nr_throttled`, and every `wait`-suffixed io.stat key); a positive counter
already present on the first tick does emit an event. -/
theorem claim_C3 :
    (∀ (dry writeOk : Bool) (name : String) (cpu : Controller.CpuCfg)
       (st : Controller.CtrlState) (stat : List (String × String))
       (predicted : Option ℚ) (meta : Controller.CpuMeta)
       (st' : Controller.CtrlState) (effs : List Effect),
       st.last_cpu = none →
       Controller.adjust_cpu dry writeOk name cpu st stat predicted =
         .ok (meta, st', effs) →
       effs = []) ∧
    (∀ (dry : Bool) (container : String) (stats : List (String × String))
       (baseline : List (String × Int)) (effs : List Effect),
       (∀ k ∈ Agent.memKeys, (pyIntField stats k).getD 0 ≤ 0) →
       Agent.detect_memory_events dry container stats [] =
         .ok (baseline, effs) →
       effs = []) ∧
    (∀ (dry : Bool) (container : String) (stats : List (String × String))
       (m : List (String × Int)) (t : Int) (effs : List Effect),
       (pyIntField stats "nr_throttled").getD 0 ≤ 0 →
       Agent.detect_cpu_throttle dry container stats 0 = .ok (m, t, effs) →
       effs = []) ∧
    (∀ (dry : Bool) (container : String) (lines : List String)
       (stats : List (String × Int)) (effs : List Effect),
       Agent.detect_io_slowdown dry container lines [] = .ok (stats, effs) →
       (∀ p ∈ stats, endsWithWait p.1 = true → p.2 ≤ 0) →
       effs = []) :=
  ⟨fun dry writeOk name cpu st stat predicted meta st' effs hlast hE =>
      adjust_cpu_first_tick dry writeOk name cpu st stat predicted meta st'
        effs hlast hE,
   fun dry container stats baseline effs hz hE =>
      detect_memory_first_tick dry container stats baseline effs hz hE,
   fun dry container stats m t effs hz hE =>
      detect_cpu_first_tick dry container stats m t effs hz hE,
   fun dry container lines stats effs hE hz =>
      detect_io_first_tick dry container lines stats effs hE hz⟩

/-- C3 (witness): the amended theorem applied to concrete first ticks with
all-zero counters. -/
theorem claim_C3_w :
    Controller.adjust_cpu false true "web" ⟨10000, 50000, 100000, 5000, []⟩
        { cpu_soft := some 10000 }
        [("usage_usec", "5"), ("throttled_usec", "7")] none =
      .ok (⟨0, 0, 5, 7, some 10000⟩,
        { cpu_soft := some 10000, last_cpu := some (5, 7) }, []) ∧
    ([] : List Effect) = [] ∧ ([] : List Effect) = [] ∧
    ([] : List Effect) = [] ∧ ([] : List Effect) = [] :=
  ⟨by decide,
   claim_C3.1 false true "web" ⟨10000, 50000, 100000, 5000, []⟩
     { cpu_soft := some 10000 }
     [("usage_usec", "5"), ("throttled_usec", "7")] none
     ⟨0, 0, 5, 7, some 10000⟩
     { cpu_soft := some 10000, last_cpu := some (5, 7) } [] rfl (by decide),
   claim_C3.2.1 false "web" [("low", "0"), ("oom_kill", "0")]
     [("low", 0), ("oom_kill", 0)] [] (by decide) (by decide),
   claim_C3.2.2.1 false "web" [("nr_throttled", "0")]
     [("nr_throttled", 0)] 0 [] (by decide) (by decide),
   claim_C3.2.2.2 false "web" ["8:0 rbytes=100 rwait=0"]
     [("rbytes", 100), ("rwait", 0)] [] (by decide) (by decide)⟩

end Containers

namespace Containers

open Containers.Controller

/-! ### Write-failure behaviour -/

end Containers

namespace Containers

open Containers.Controller

/-! ### I/O adjustment with a device row lacking rbps/wbps keys -/

theorem emitE_eq_iff (dry : Bool) (e e' : Event) :
    emitE dry e = emitE dry e' ↔ e = e' := by
  cases dry <;> simp [emitE]

theorem emitE_ne_writeIoMax (dry : Bool) (e : Event) (d : String)
    (r w : Int) : emitE dry e ≠ .writeIoMax d r w := by
  cases dry <;> simp [emitE]

theorem adjust_io_no_rate_keys (dry writeOk : Bool) (name : String)
    (io_cfg : Controller.IoCfg) (st : Controller.CtrlState)
    (metrics : List (String × Int)) (meta : Controller.IoMeta)
    (st' : Controller.CtrlState) (effs : List Effect) (softR softW : Int)
    (hr : getS metrics "rbps" = none) (hw : getS metrics "wbps" = none)
    (hsr : st.io_soft_rbps = some softR)
    (hsw : st.io_soft_wbps = some softW)
    (hE : Controller.adjust_io dry writeOk name io_cfg st metrics =
      .ok (meta, st', effs)) :
    (∀ r w, emitE dry (.hardLimitHitIo name r w) ∈ effs →
      r = 0 ∧ w = 0 ∧ (io_cfg.hard_rbps ≤ 0 ∨ io_cfg.hard_wbps ≤ 0)) ∧
    (∀ nr nw, emitE dry (.softLimitHitIo name nr nw) ∈ effs →
      (softR ≤ 0 ∧ softR < io_cfg.hard_rbps) ∨
      (softW ≤ 0 ∧ softW < io_cfg.hard_wbps)) := by
  have hr0 : getD metrics "rbps" 0 = 0 := by unfold getD; rw [hr]; rfl
  have hw0 : getD metrics "wbps" 0 = 0 := by unfold getD; rw [hw]; rfl
  unfold Controller.adjust_io at hE
  split at hE
  · simp only [Except.ok.injEq, Prod.mk.injEq] at hE
    rw [← hE.2.2]
    exact ⟨fun r w hm => absurd hm (by simp),
           fun nr nw hm => absurd hm (by simp)⟩
  · rw [hsr, hsw] at hE
    dsimp only [] at hE
    rw [hr0, hw0] at hE
    split at hE
    · rename_i hhit
      split at hE
      · exact absurd hE (by simp)
      · rename_i wres hwres
        simp only [Except.ok.injEq, Prod.mk.injEq] at hE
        obtain ⟨hmeta, hst, heffs⟩ := hE
        rw [← heffs]
        constructor
        · intro r w hm
          rcases List.mem_append.mp hm with hm | hm
          · rcases List.mem_singleton.mp hm with hm2
            exact absurd ((emitE_eq_iff dry _ _).mp hm2) (by simp)
          · unfold Controller.write_io_limit at hwres
            split at hwres
            · simp only [Except.ok.injEq] at hwres
              rw [← hwres] at hm; exact absurd hm (by simp)
            · split at hwres
              · simp only [Except.ok.injEq] at hwres
                rw [← hwres] at hm
                rcases List.mem_singleton.mp hm with hm2
                exact absurd hm2 (emitE_ne_writeIoMax dry _ _ _ _)
              · exact absurd hwres (by simp)
        · intro nr nw hm
          rcases hhit with h | h
          · exact Or.inl ⟨by omega, h.2⟩
          · exact Or.inr ⟨by omega, h.2⟩
    · split at hE
      · rename_i hhard
        simp only [Except.ok.injEq, Prod.mk.injEq] at hE
        obtain ⟨hmeta, hst, heffs⟩ := hE
        rw [← heffs]
        constructor
        · intro r w hm
          rcases List.mem_singleton.mp hm with hm2
          have := (emitE_eq_iff dry _ _).mp hm2
          have hrw : r = 0 ∧ w = 0 := by
            cases this; exact ⟨rfl, rfl⟩
          refine ⟨hrw.1, hrw.2, ?_⟩
          rcases hhard with h | h
          · exact Or.inl (by omega)
          · exact Or.inr (by omega)
        · intro nr nw hm
          rcases List.mem_singleton.mp hm with hm2
          exact absurd ((emitE_eq_iff dry _ _).mp hm2) (by simp)
      · simp only [Except.ok.injEq, Prod.mk.injEq] at hE
        obtain ⟨hmeta, hst, heffs⟩ := hE
        rw [← heffs]
        exact ⟨fun r w hm => absurd hm (by simp),
               fun nr nw hm => absurd hm (by simp)⟩

/-- C10 (counterexample): the claim says that when the parsed device row of
`io.stat` carries neither an `rbps` nor a `wbps` key, no I/O
`hard_limit_hit` is ever emitted.  `ensure_base_limits` never validates the
I/O configuration, so `hard_rbps = 0` is accepted; the default rate `0`
then satisfies `rbps >= io_cfg["hard_rbps"]` and `adjust_io` emits
`hard_limit_hit`. -/
theorem claim_C10_cex :
    Controller.parse_io_stat ["8:0 rios=5"] "8:0" = .ok [("rios", 5)] ∧
    Controller.adjust_io false true "web" ⟨"8:0", 100, 100, 0, 100, 10⟩
        { io_soft_rbps := some 100, io_soft_wbps := some 100 }
        [("rios", 5)] =
      .ok (⟨[("rios", 5)], some 100, some 100⟩,
        { io_soft_rbps := some 100, io_soft_wbps := some 100 },
        [.journal (.hardLimitHitIo "web" 0 0)]) := by decide

/-- C10 (amended): when the device row carries neither key, the observed
rates default to `0`; consequently a `hard_limit_hit` is emitted only with
the default rates `0` and only if a hard limit is `≤ 0` — in particular
never when both hard limits are positive — and a soft raise fires only if
the corresponding applied soft limit is `≤ 0` (and below its hard
limit). -/
theorem claim_C10 (dry writeOk : Bool) (name : String)
    (io_cfg : Controller.IoCfg) (st : Controller.CtrlState)
    (metrics : List (String × Int)) (meta : Controller.IoMeta)
    (st' : Controller.CtrlState) (effs : List Effect) (softR softW : Int)
    (hr : getS metrics "rbps" = none) (hw : getS metrics "wbps" = none)
    (hsr : st.io_soft_rbps = some softR)
    (hsw : st.io_soft_wbps = some softW)
    (hE : Controller.adjust_io dry writeOk name io_cfg st metrics =
      .ok (meta, st', effs)) :
    (∀ r w, emitE dry (.hardLimitHitIo name r w) ∈ effs →
      r = 0 ∧ w = 0 ∧ (io_cfg.hard_rbps ≤ 0 ∨ io_cfg.hard_wbps ≤ 0)) ∧
    (∀ nr nw, emitE dry (.softLimitHitIo name nr nw) ∈ effs →
      (softR ≤ 0 ∧ softR < io_cfg.hard_rbps) ∨
      (softW ≤ 0 ∧ softW < io_cfg.hard_wbps)) ∧
    (0 < io_cfg.hard_rbps → 0 < io_cfg.hard_wbps →
      ∀ r w, emitE dry (.hardLimitHitIo name r w) ∉ effs) := by
  obtain ⟨hA, hB⟩ := adjust_io_no_rate_keys dry writeOk name io_cfg st
    metrics meta st' effs softR softW hr hw hsr hsw hE
  refine ⟨hA, hB, ?_⟩
  intro hhr hhw r w hm
  rcases (hA r w hm).2.2 with h | h
  · omega
  · omega

/-- C10 (witness): the amended theorem at a device row `8:0 rios=5` with
positive hard limits: no event is emitted at all. -/
theorem claim_C10_w :
    Controller.adjust_io false true "web" ⟨"8:0", 100, 100, 1000, 1000, 10⟩
        { io_soft_rbps := some 100, io_soft_wbps := some 100 }
        [("rios", 5)] =
      .ok (⟨[("rios", 5)], some 100, some 100⟩,
        { io_soft_rbps := some 100, io_soft_wbps := some 100 }, []) ∧
    ((∀ r w, emitE false (.hardLimitHitIo "web" r w) ∈ ([] : List Effect) →
       r = 0 ∧ w = 0 ∧ ((1000 : Int) ≤ 0 ∨ (1000 : Int) ≤ 0)) ∧
     (∀ nr nw, emitE false (.softLimitHitIo "web" nr nw) ∈ ([] : List Effect) →
       ((100 : Int) ≤ 0 ∧ (100 : Int) < 1000) ∨
       ((100 : Int) ≤ 0 ∧ (100 : Int) < 1000)) ∧
     ((0 : Int) < 1000 → (0 : Int) < 1000 →
       ∀ r w, emitE false (.hardLimitHitIo "web" r w) ∉ ([] : List Effect))) :=
  ⟨by decide,
   claim_C10 false true "web" ⟨"8:0", 100, 100, 1000, 1000, 10⟩
     { io_soft_rbps := some 100, io_soft_wbps := some 100 } [("rios", 5)]
     ⟨[("rios", 5)], some 100, some 100⟩
     { io_soft_rbps := some 100, io_soft_wbps := some 100 } [] 100 100
     (by decide) (by decide) rfl rfl (by decide)⟩

end Containers

namespace Containers

open Containers.Controller

/-! ### Dry-run effects -/

set_option maxHeartbeats 4000000

theorem adjust_cpu_dry_effects (writeOk : Bool) (name : String)
    (cpu : Controller.CpuCfg) (st : Controller.CtrlState)
    (stat : List (String × String)) (predicted : Option ℚ)
    (res : Except (Controller.CtrlErr × Controller.CtrlState × List Effect)
      (Controller.CpuMeta × Controller.CtrlState × List Effect))
    (hres : Controller.adjust_cpu true writeOk name cpu st stat predicted =
      res) :
    ∀ eff ∈ Controller.effectsOf res, eff.isPrint = true := by
  unfold Controller.adjust_cpu at hres
  repeat' split at hres
  all_goals try (rw [← hres]; simp_all [Controller.effectsOf, emitE,
    Controller.write_cpu_max, Effect.isPrint])
  all_goals (rcases hcs : st.cpu_soft with _ | s <;> rw [hcs] at hres <;>
    repeat' split at hres)
  all_goals (rw [← hres]; simp_all [Controller.effectsOf, emitE,
    Controller.write_cpu_max, Effect.isPrint])

theorem adjust_memory_dry_effects (writeOk : Bool) (name : String)
    (memory : Controller.MemCfg) (st : Controller.CtrlState)
    (current_val : Option Int)
    (res : Except (Controller.CtrlErr × Controller.CtrlState × List Effect)
      (Controller.MemMeta × Controller.CtrlState × List Effect))
    (hres : Controller.adjust_memory true writeOk name memory st current_val
      = res) :
    ∀ eff ∈ Controller.effectsOf res, eff.isPrint = true := by
  unfold Controller.adjust_memory at hres
  repeat' split at hres
  all_goals try (rw [← hres]; simp_all [Controller.effectsOf, emitE,
    Controller.write_memory_limits, Effect.isPrint])
  all_goals split at hres
  all_goals (rw [← hres]; simp_all [Controller.effectsOf, emitE,
    Controller.write_memory_limits, Effect.isPrint])

theorem adjust_io_dry_effects (writeOk : Bool) (name : String)
    (io_cfg : Controller.IoCfg) (st : Controller.CtrlState)
    (metrics : List (String × Int))
    (res : Except (Controller.CtrlErr × Controller.CtrlState × List Effect)
      (Controller.IoMeta × Controller.CtrlState × List Effect))
    (hres : Controller.adjust_io true writeOk name io_cfg st metrics = res) :
    ∀ eff ∈ Controller.effectsOf res, eff.isPrint = true := by
  unfold Controller.adjust_io at hres
  repeat' split at hres
  all_goals try (rw [← hres]; simp_all [Controller.effectsOf, emitE,
    Controller.write_io_limit, Effect.isPrint])
  all_goals split at hres
  all_goals try (rw [← hres]; simp_all [Controller.effectsOf, emitE,
    Controller.write_io_limit, Effect.isPrint])
  all_goals split at hres
  all_goals (rw [← hres]; simp_all [Controller.effectsOf, emitE,
    Controller.write_io_limit, Effect.isPrint])

theorem ensure_cpu_dry_effects (writeOk : Bool) (c : Controller.ContainerCfg)
    (st : Controller.CtrlState)
    (res : Except (Controller.CtrlErr × Controller.CtrlState × List Effect)
      (Controller.CtrlState × List Effect))
    (hres : Controller.ensure_cpu true writeOk c st = res) :
    ∀ eff ∈ Controller.effectsOfE res,
      eff = .mkdirCgroup c.cgroup_path ∨ eff.isPrint = true := by
  unfold Controller.ensure_cpu at hres
  repeat' split at hres
  all_goals
    (rw [← hres]; intro eff hm
     simp_all [Controller.effectsOfE, Controller.attach_pids, emitE,
       Controller.write_cpu_max, Effect.isPrint])
  all_goals
    (rcases hm with hm | ⟨pid, hpid, heq⟩
     · exact Or.inl hm
     · exact Or.inr (by subst heq; rfl))

theorem ensure_memory_dry_effects (writeOk : Bool)
    (c : Controller.ContainerCfg) (st1 : Controller.CtrlState)
    (effs1 : List Effect)
    (res : Except (Controller.CtrlErr × Controller.CtrlState × List Effect)
      (Controller.CtrlState × List Effect))
    (hres : Controller.ensure_memory true writeOk c st1 effs1 = res)
    (hin : ∀ eff ∈ effs1, eff = .mkdirCgroup c.cgroup_path ∨
      eff.isPrint = true) :
    ∀ eff ∈ Controller.effectsOfE res,
      eff = .mkdirCgroup c.cgroup_path ∨ eff.isPrint = true := by
  unfold Controller.ensure_memory at hres
  repeat' split at hres
  all_goals
    (rw [← hres]; intro eff hm
     simp_all [Controller.effectsOfE, emitE,
       Controller.write_memory_limits, Effect.isPrint])

theorem ensure_io_dry_effects (writeOk : Bool)
    (c : Controller.ContainerCfg) (st2 : Controller.CtrlState)
    (effs2 : List Effect)
    (res : Except (Controller.CtrlErr × Controller.CtrlState × List Effect)
      (Controller.CtrlState × List Effect))
    (hres : Controller.ensure_io true writeOk c st2 effs2 = res)
    (hin : ∀ eff ∈ effs2, eff = .mkdirCgroup c.cgroup_path ∨
      eff.isPrint = true) :
    ∀ eff ∈ Controller.effectsOfE res,
      eff = .mkdirCgroup c.cgroup_path ∨ eff.isPrint = true := by
  unfold Controller.ensure_io at hres
  repeat' split at hres
  all_goals
    (rw [← hres]; intro eff hm
     simp_all [Controller.effectsOfE, emitE,
       Controller.write_io_limit, Effect.isPrint])

theorem ensure_dry_effects (writeOk : Bool) (c : Controller.ContainerCfg)
    (st : Controller.CtrlState)
    (res : Except (Controller.CtrlErr × Controller.CtrlState × List Effect)
      (Controller.CtrlState × List Effect))
    (hres : Controller.ensure_base_limits true writeOk c st = res) :
    ∀ eff ∈ Controller.effectsOfE res,
      eff = .mkdirCgroup c.cgroup_path ∨ eff.isPrint = true := by
  unfold Controller.ensure_base_limits at hres
  split at hres
  · rename_i e hcpu
    rw [← hres]
    exact ensure_cpu_dry_effects writeOk c st (.error e) hcpu
  · rename_i st1 effs1 hcpu
    have h1 := ensure_cpu_dry_effects writeOk c st (.ok (st1, effs1)) hcpu
    split at hres
    · rename_i e hmem
      rw [← hres]
      exact ensure_memory_dry_effects writeOk c st1 effs1 (.error e) hmem
        (fun eff hm => h1 eff hm)
    · rename_i st2 effs2 hmem
      have h2 := ensure_memory_dry_effects writeOk c st1 effs1
        (.ok (st2, effs2)) hmem (fun eff hm => h1 eff hm)
      exact ensure_io_dry_effects writeOk c st2 effs2 res hres
        (fun eff hm => h2 eff hm)

end Containers

namespace Containers

open Containers.Controller

theorem controller_tick_dry_effects (hasSink : Bool) (name : String)
    (c : Controller.ContainerCfg) (st : Controller.CtrlState)
    (inp : Controller.TickInput)
    (res : Except (Controller.CtrlErr × Controller.CtrlState × List Effect)
      (Controller.CtrlState × List Effect))
    (hres : Controller.controller_tick true hasSink name c st inp = res) :
    ∀ eff ∈ Controller.effectsOfE res,
      eff = .mkdirCgroup c.cgroup_path ∨ eff.isPrint = true := by
  unfold Controller.controller_tick at hres
  split at hres
  · rename_i e hens
    rw [← hres]
    exact ensure_dry_effects inp.writeOk c st (.error e) hens
  · rename_i st1 effs1 hens
    have h1 := ensure_dry_effects inp.writeOk c st (.ok (st1, effs1)) hens
    dsimp only [] at hres
    split at hres
    · rename_i e hstat
      rw [← hres]
      exact fun eff hm => h1 eff hm
    · rename_i stat hstat
      split at hres
      · rename_i e hio
        rw [← hres]
        exact fun eff hm => h1 eff hm
      · rename_i io_metrics hio
        split at hres
        · rename_i e st' effs' hcpu
          rw [← hres]
          intro eff hm
          rcases List.mem_append.mp hm with hm | hm
          · exact h1 eff hm
          · exact Or.inr (adjust_cpu_dry_effects inp.writeOk name c.cpu st1
              stat inp.predicted (.error (e, st', effs')) hcpu eff hm)
        · rename_i cpu_meta st2 effs2 hcpu
          have h2 := adjust_cpu_dry_effects inp.writeOk name c.cpu st1 stat
            inp.predicted (.ok (cpu_meta, st2, effs2)) hcpu
          split at hres
          · rename_i e st' effs' hmem
            rw [← hres]
            intro eff hm
            rcases List.mem_append.mp hm with hm | hm
            · rcases List.mem_append.mp hm with hm | hm
              · exact h1 eff hm
              · exact Or.inr (h2 eff hm)
            · exact Or.inr (adjust_memory_dry_effects inp.writeOk name
                c.memory st2 inp.memory_current (.error (e, st', effs')) hmem
                eff hm)
          · rename_i mem_meta st3 effs3 hmem
            have h3 := adjust_memory_dry_effects inp.writeOk name c.memory
              st2 inp.memory_current (.ok (mem_meta, st3, effs3)) hmem
            split at hres
            · rename_i e st' effs' hioadj
              rw [← hres]
              intro eff hm
              rcases List.mem_append.mp hm with hm | hm
              · rcases List.mem_append.mp hm with hm | hm
                · rcases List.mem_append.mp hm with hm | hm
                  · exact h1 eff hm
                  · exact Or.inr (h2 eff hm)
                · exact Or.inr (h3 eff hm)
              · exact Or.inr (adjust_io_dry_effects inp.writeOk name c.io
                  st3 io_metrics (.error (e, st', effs')) hioadj eff hm)
            · rename_i io_meta st4 effs4 hioadj
              have h4 := adjust_io_dry_effects inp.writeOk name c.io st3
                io_metrics (.ok (io_meta, st4, effs4)) hioadj
              rw [← hres]
              intro eff hm
              simp only [Controller.effectsOfE] at hm
              rcases List.mem_append.mp hm with hm | hm
              · rcases List.mem_append.mp hm with hm | hm
                · rcases List.mem_append.mp hm with hm | hm
                  · rcases List.mem_append.mp hm with hm | hm
                    · exact h1 eff hm
                    · exact Or.inr (h2 eff hm)
                  · exact Or.inr (h3 eff hm)
                · exact Or.inr (h4 eff hm)
              · exact absurd hm (by
                  simp [Controller.record_training_sample])

theorem dry_pred_of (p : String) (eff : Effect)
    (h : eff = .mkdirCgroup p ∨ eff.isPrint = true) :
    (!eff.isCgroupWrite && !eff.isJournal) = true := by
  rcases h with h | h
  · subst h; rfl
  · cases eff <;> simp_all [Effect.isPrint, Effect.isCgroupWrite,
      Effect.isJournal]

/-- C8 (counterexample): the claim says all cgroupfs and journal state is
untouched in dry-run and every would-be write is printed to standard
output.  On a fresh container in dry-run, `ensure_base_limits` would write
`cpu.max`, `memory.high`/`memory.max` and `io.max` (the in-memory state is
initialised), yet the trace contains no print at all — and it still
contains the unconditional `cgroup.mkdir(parents=True, exist_ok=True)`,
which creates the cgroup directory even in dry-run. -/
theorem claim_C8_cex :
    Controller.ensure_base_limits true true
        ⟨"/sys/fs/cgroup/app", ⟨10000, 50000, 100000, 5000, []⟩,
          ⟨100, 200, 20⟩, ⟨"8:0", 100, 100, 1000, 1000, 10⟩⟩ {} =
      .ok ({ cpu_soft := some 10000, memory_soft := some 100,
             io_soft_rbps := some 100, io_soft_wbps := some 100 },
        [.mkdirCgroup "/sys/fs/cgroup/app"]) ∧
    (Effect.mkdirCgroup "/sys/fs/cgroup/app").isPrint = false := by decide

/-- C8 (amended): in dry-run, a whole controller iteration writes no bytes
to any cgroup file (including `cgroup.procs`) and appends nothing to the
event or sample journals, and every emitted event goes to standard output
(`emit` prints); however the cgroup directory is still created and the
skipped cgroup writes are not printed. -/
theorem claim_C8 (hasSink : Bool) (name : String)
    (c : Controller.ContainerCfg) (st : Controller.CtrlState)
    (inp : Controller.TickInput) :
    (Controller.effectsOfE
        (Controller.controller_tick true hasSink name c st inp)).all
      (fun eff => !eff.isCgroupWrite && !eff.isJournal) = true ∧
    (∀ ev : Event, emitE true ev = .print ev) := by
  constructor
  · rw [List.all_eq_true]
    intro eff hm
    exact dry_pred_of c.cgroup_path eff
      (controller_tick_dry_effects hasSink name c st inp _ rfl eff hm)
  · intro ev; rfl

end Containers
